import Mathlib

/-!
Verification of the client-side post state logic of the Social_network
React frontend.

The development shallowly embeds the components the specification's claims
are about:

* PostCard (src/unnamed/part_000, component PostCard): per-card local
  reaction state (isLiked, isDisliked, likesCount, dislikesCount held in
  useState hooks) and the click handlers handleLike / handleDislike.
* Dashboard (src/unnamed/part_003): the posts / userPosts lists and the
  operations fetchPosts, handleCreatePost, handleDeletePost,
  handlePostLike / handlePostDislike.
* The upload validators handleFileChange (Signup, src/unnamed/part_000)
  and handlePostImageChange (Dashboard, src/unnamed/part_003).

JavaScript numbers are modelled as Int (counters may go negative, as in
the source), strings as String, and each awaited remote call as an
explicit Except-valued argument giving the call's outcome.  A handler
that suspends at an await is split into the state reached before the
await (its synchronous part) and the reconciliation applied to the
result, exactly following the statement order of the source.
-/

/-- A post as consumed by the frontend: the fields read by Dashboard,
Profile and PostCard (id, author, description, image, created_at,
is_liked, is_disliked, likes_count, dislikes_count). -/
structure Post where
  id : Int
  author : Int
  description : String
  image : Option String
  created_at : String
  is_liked : Bool
  is_disliked : Bool
  likes_count : Int
  dislikes_count : Int
deriving DecidableEq

/-- The four useState hooks of one PostCard component instance. -/
structure CardState where
  isLiked : Bool
  isDisliked : Bool
  likesCount : Int
  dislikesCount : Int
deriving DecidableEq

/-- Initial values of the PostCard hooks: useState(post.is_liked) and the
three companions. -/
def initCardState (p : Post) : CardState :=
  { isLiked := p.is_liked
    isDisliked := p.is_disliked
    likesCount := p.likes_count
    dislikesCount := p.dislikes_count }

/-- PostCard handleLike.  If isLiked, the card calls onLike(post.id, false)
and clears the like, decrementing likesCount.  Otherwise it calls
onLike(post.id, true), sets isLiked, clears isDisliked (decrementing
dislikesCount) when the dislike was set, and increments likesCount.  The
returned Bool is the second argument passed to onLike. -/
def handleLike (s : CardState) : CardState × Bool :=
  if s.isLiked then
    ({ s with isLiked := false, likesCount := s.likesCount - 1 }, false)
  else
    let cleared :=
      if s.isDisliked then
        { s with isDisliked := false, dislikesCount := s.dislikesCount - 1 }
      else s
    ({ cleared with isLiked := true, likesCount := s.likesCount + 1 }, true)

/-- PostCard handleDislike, symmetric to handleLike; the returned Bool is
the second argument passed to onDislike. -/
def handleDislike (s : CardState) : CardState × Bool :=
  if s.isDisliked then
    ({ s with isDisliked := false, dislikesCount := s.dislikesCount - 1 }, false)
  else
    let cleared :=
      if s.isLiked then
        { s with isLiked := false, likesCount := s.likesCount - 1 }
      else s
    ({ cleared with isDisliked := true, dislikesCount := s.dislikesCount + 1 }, true)

/-- A click on one of the two reaction buttons of a card. -/
inductive ClickOp where
  | like
  | dislike
deriving DecidableEq

/-- State transition of one button click (the callback argument is
discarded here). -/
def applyClick (op : ClickOp) (s : CardState) : CardState :=
  match op with
  | ClickOp.like => (handleLike s).1
  | ClickOp.dislike => (handleDislike s).1

/-- State after a sequence of button clicks, first click first. -/
def applyClicks (ops : List ClickOp) (s : CardState) : CardState :=
  ops.foldl (fun t op => applyClick op t) s

theorem applyClick_not_both (op : ClickOp) (s : CardState) :
    ((applyClick op s).isLiked && (applyClick op s).isDisliked) = false := by
  cases op <;> simp only [applyClick, handleLike, handleDislike] <;>
    rcases hl : s.isLiked <;> rcases hd : s.isDisliked <;> simp [hl, hd]

theorem applyClicks_not_both (ops : List ClickOp) (s : CardState)
    (h : (s.isLiked && s.isDisliked) = false) :
    ((applyClicks ops s).isLiked && (applyClicks ops s).isDisliked) = false := by
  induction ops generalizing s with
  | nil => simpa [applyClicks] using h
  | cons op rest ih =>
      have hstep := applyClick_not_both op s
      simpa [applyClicks, List.foldl_cons] using ih (applyClick op s) hstep

/-- C1: starting from a card whose flags are not both set, no sequence of
like/dislike clicks ever reaches a state with both isLiked and
isDisliked true, and setting one polarity clears the other in the same
transition. -/
theorem c1_mutual_exclusion (ops : List ClickOp) (s : CardState)
    (h : (s.isLiked && s.isDisliked) = false) :
    ((applyClicks ops s).isLiked && (applyClicks ops s).isDisliked) = false ∧
    (s.isLiked = false →
      (handleLike s).1.isLiked = true ∧ (handleLike s).1.isDisliked = false) ∧
    (s.isDisliked = false →
      (handleDislike s).1.isDisliked = true ∧ (handleDislike s).1.isLiked = false) := by
  refine ⟨applyClicks_not_both ops s h, ?_, ?_⟩
  · intro hl
    simp only [handleLike, hl]
    rcases hd : s.isDisliked <;> simp [hd]
  · intro hd
    simp only [handleDislike, hd]
    rcases hl : s.isLiked <;> simp [hl]

theorem c1_mutual_exclusion_witness :
    (((⟨false, true, 3, 1⟩ : CardState).isLiked &&
      (⟨false, true, 3, 1⟩ : CardState).isDisliked) = false) ∧
    ((applyClicks [ClickOp.like, ClickOp.dislike, ClickOp.like] ⟨false, true, 3, 1⟩).isLiked &&
      (applyClicks [ClickOp.like, ClickOp.dislike, ClickOp.like] ⟨false, true, 3, 1⟩).isDisliked) = false :=
  ⟨by decide,
    (c1_mutual_exclusion [ClickOp.like, ClickOp.dislike, ClickOp.like]
      ⟨false, true, 3, 1⟩ (by decide)).1⟩

/-- C2: from a disliked card (isLiked false, isDisliked true) a like click
yields the liked state with likesCount incremented and dislikesCount
decremented. -/
theorem c2_dislike_to_like (s : CardState)
    (hl : s.isLiked = false) (hd : s.isDisliked = true) :
    (handleLike s).1.isLiked = true ∧
    (handleLike s).1.isDisliked = false ∧
    (handleLike s).1.likesCount = s.likesCount + 1 ∧
    (handleLike s).1.dislikesCount = s.dislikesCount - 1 := by
  simp [handleLike, hl, hd]

theorem c2_dislike_to_like_witness :
    (handleLike ⟨false, true, 3, 1⟩).1.isLiked = true ∧
    (handleLike ⟨false, true, 3, 1⟩).1.isDisliked = false ∧
    (handleLike ⟨false, true, 3, 1⟩).1.likesCount = 4 ∧
    (handleLike ⟨false, true, 3, 1⟩).1.dislikesCount = 0 :=
  c2_dislike_to_like ⟨false, true, 3, 1⟩ rfl rfl

/-- A locally selected file as the upload handlers see it: its MIME type
string (file.type) and its size in bytes (file.size). -/
structure JsFile where
  type : String
  size : Nat
deriving DecidableEq

/-- A post draft under composition in the Dashboard form (the newPost
hook): description and optional image file. -/
structure NewPost where
  description : String
  image : Option JsFile
deriving DecidableEq

/-- The Dashboard useState hooks the post operations touch: the two post
lists and the error / progress flags. -/
structure DashState where
  posts : List Post
  userPosts : List Post
  loading : Bool
  error : String
  createError : String
  isCreatingPost : Bool
deriving DecidableEq

/-- Dashboard fetchPosts: sets loading, clears error, awaits
postsAPI.getPosts (the Except argument), then either replaces posts and
recomputes userPosts as the author filter, or records the fetch error
message leaving both lists unchanged. -/
def fetchPosts (uid : Int) (st : DashState)
    (result : Except Unit (List Post)) : DashState :=
  let st1 := { st with loading := true, error := "" }
  match result with
  | Except.ok ps =>
      { st1 with
          posts := ps
          userPosts := ps.filter (fun p => p.author == uid)
          loading := false }
  | Except.error _ =>
      { st1 with error := "Failed to load posts. Please try again.", loading := false }

/-- Executable model of JavaScript String.prototype.trim: drop leading
and trailing whitespace characters. -/
def jsTrim (s : String) : String :=
  String.mk (((s.data.dropWhile Char.isWhitespace).reverse.dropWhile
    Char.isWhitespace).reverse)

/-- Dashboard handleCreatePost before its await: an empty trimmed
description only sets createError and returns; otherwise the progress
flag is set and createError cleared.  The post lists are not touched by
any statement before the remote call. -/
def createPhase1 (st : DashState) (draft : NewPost) : DashState :=
  if jsTrim draft.description = "" then
    { st with createError := "Post description is required" }
  else
    { st with isCreatingPost := true, createError := "" }

/-- Dashboard handleCreatePost after its await: on success the confirmed
post is prepended to posts, and to userPosts when its author is the
current user; on failure createError is set to the first backend error
when one is present, otherwise to the generic message.  The finally
block clears the progress flag. -/
def createPhase2 (uid : Int) (st : DashState)
    (result : Except (Option String) Post) : DashState :=
  match result with
  | Except.ok post =>
      { st with
          posts := post :: st.posts
          userPosts :=
            if post.author == uid then post :: st.userPosts else st.userPosts
          isCreatingPost := false }
  | Except.error errData =>
      { st with
          createError :=
            match errData with
            | some msg => msg
            | none => "Failed to create post. Please try again."
          isCreatingPost := false }

/-- Dashboard handleCreatePost as a whole: the validation-failure early
return, otherwise the synchronous part followed by the reconciliation of
the remote result. -/
def handleCreatePost (uid : Int) (st : DashState) (draft : NewPost)
    (result : Except (Option String) Post) : DashState :=
  if jsTrim draft.description = "" then createPhase1 st draft
  else createPhase2 uid (createPhase1 st draft) result

/-- Dashboard handleDeletePost before its await: the handler runs only
when the window.confirm dialog was accepted, and no statement before the
awaited postsAPI.deletePost call touches any state. -/
def deletePhase1 (st : DashState) (postId : Int) (confirmed : Bool) : DashState :=
  if confirmed then st else st

/-- Dashboard handleDeletePost: when confirmed, awaits
postsAPI.deletePost; on success filters the post out of both lists; on
failure only an alert is shown and no state changes. -/
def handleDeletePost (st : DashState) (postId : Int) (confirmed : Bool)
    (result : Except Unit Unit) : DashState :=
  if confirmed then
    match result with
    | Except.ok _ =>
        { st with
            posts := st.posts.filter (fun p => !(p.id == postId))
            userPosts := st.userPosts.filter (fun p => !(p.id == postId)) }
    | Except.error _ => st
  else st

/-- The remote calls issued by the Dashboard reaction handlers. -/
inductive ApiCall where
  | likePost (id : Int)
  | removeLike (id : Int)
  | dislikePost (id : Int)
  | removeDislike (id : Int)
deriving DecidableEq

/-- Dashboard handlePostLike: chooses between postsAPI.likePost and
postsAPI.removeLike from the shouldLike flag; the comment in the source
notes that local state is updated in the PostCard component, and indeed
neither branch nor the catch block touches posts or userPosts. -/
def handlePostLike (postId : Int) (shouldLike : Bool) : ApiCall :=
  if shouldLike then ApiCall.likePost postId else ApiCall.removeLike postId

/-- Dashboard handlePostDislike, symmetric to handlePostLike. -/
def handlePostDislike (postId : Int) (shouldDislike : Bool) : ApiCall :=
  if shouldDislike then ApiCall.dislikePost postId else ApiCall.removeDislike postId

/-- One completed Dashboard operation together with the outcome of its
remote call. -/
inductive DashOp where
  | load (result : Except Unit (List Post))
  | create (draft : NewPost) (result : Except (Option String) Post)
  | delete (postId : Int) (confirmed : Bool) (result : Except Unit Unit)
  | react (postId : Int) (shouldLike : Bool) (result : Except Unit Unit)

/-- Effect of one completed operation on the Dashboard state.  The react
handlers never write posts or userPosts (their success path and their
catch block only call the API and alert), so the react case is the
identity on the Dashboard state. -/
def applyDashOp (uid : Int) (st : DashState) : DashOp → DashState
  | DashOp.load r => fetchPosts uid st r
  | DashOp.create d r => handleCreatePost uid st d r
  | DashOp.delete pid c r => handleDeletePost st pid c r
  | DashOp.react _ _ _ => st

/-- Dashboard state after a sequence of completed operations. -/
def applyDashOps (uid : Int) (ops : List DashOp) (st : DashState) : DashState :=
  ops.foldl (applyDashOp uid) st

/-- The structural relation between the two Dashboard lists: userPosts is
the author filter of posts. -/
def mineInvariant (uid : Int) (st : DashState) : Prop :=
  st.userPosts = st.posts.filter (fun p => p.author == uid)

instance (uid : Int) (st : DashState) : Decidable (mineInvariant uid st) := by
  unfold mineInvariant; infer_instance

theorem applyDashOp_mine (uid : Int) (st : DashState) (op : DashOp)
    (h : mineInvariant uid st) : mineInvariant uid (applyDashOp uid st op) := by
  cases op with
  | load r =>
      cases r with
      | ok ps => simp [applyDashOp, fetchPosts, mineInvariant]
      | error e => simpa [applyDashOp, fetchPosts, mineInvariant] using h
  | create d r =>
      by_cases hv : jsTrim d.description = ""
      · simpa [applyDashOp, handleCreatePost, createPhase1, hv, mineInvariant] using h
      · cases r with
        | ok post =>
            simp only [applyDashOp, handleCreatePost, createPhase1, hv, if_neg hv,
              createPhase2, mineInvariant] at h ⊢
            rcases ha : (post.author == uid) <;>
              simp [List.filter_cons, ha, h]
        | error e =>
            simpa [applyDashOp, handleCreatePost, createPhase1, hv, createPhase2,
              mineInvariant] using h
  | delete pid c r =>
      cases c with
      | false => simpa [applyDashOp, handleDeletePost, mineInvariant] using h
      | true =>
          cases r with
          | ok u =>
              simp only [applyDashOp, handleDeletePost, if_pos, mineInvariant] at h ⊢
              rw [h, List.filter_comm]
          | error e => simpa [applyDashOp, handleDeletePost, mineInvariant] using h
  | react pid b r => simpa [applyDashOp, mineInvariant] using h

/-- C3: after every sequence of completed operations (load, create,
delete, react), each with either outcome of its remote call, userPosts
still equals the author filter of posts whenever it did initially. -/
theorem c3_mine_invariant (uid : Int) (ops : List DashOp) (st : DashState)
    (h : mineInvariant uid st) : mineInvariant uid (applyDashOps uid ops st) := by
  induction ops generalizing st with
  | nil => simpa [applyDashOps] using h
  | cons op rest ih =>
      simpa [applyDashOps, List.foldl_cons] using
        ih (applyDashOp uid st op) (applyDashOp_mine uid st op h)

/-- C4 counterexample: with an empty collection and the non-empty draft
"hello", the state reached by handleCreatePost before its remote call
resolves holds no provisional entry at all; the collection is untouched
until the server responds, contradicting the claimed optimistic insert. -/
theorem c4_counterexample :
    jsTrim (⟨"hello", none⟩ : NewPost).description ≠ "" ∧
    (createPhase1 ⟨[], [], false, "", "", false⟩ ⟨"hello", none⟩).posts = [] ∧
    (createPhase1 ⟨[], [], false, "", "", false⟩ ⟨"hello", none⟩).userPosts = [] := by
  decide

/-- C4 amended: create with a non-empty description performs no insertion
before the remote call resolves; on success the server-confirmed post is
prepended once (no provisional entry ever exists, hence no duplicate to
clean up); on failure the lists are unchanged and createError is set to
the first backend error, or to the generic message when none is given. -/
theorem c4_no_optimistic_insert (uid : Int) (st : DashState) (draft : NewPost)
    (post : Post) (e : Option String) (h : jsTrim draft.description ≠ "") :
    (createPhase1 st draft).posts = st.posts ∧
    (createPhase1 st draft).userPosts = st.userPosts ∧
    (handleCreatePost uid st draft (Except.ok post)).posts = post :: st.posts ∧
    (handleCreatePost uid st draft (Except.error e)).posts = st.posts ∧
    (handleCreatePost uid st draft (Except.error e)).userPosts = st.userPosts ∧
    (handleCreatePost uid st draft (Except.error (some "boom"))).createError = "boom" ∧
    (handleCreatePost uid st draft (Except.error none)).createError =
      "Failed to create post. Please try again." := by
  refine ⟨?_, ?_, ?_, ?_, ?_, ?_, ?_⟩ <;>
    simp [createPhase1, handleCreatePost, createPhase2, h]

theorem c4_no_optimistic_insert_witness :
    (createPhase1 ⟨[], [], false, "", "", false⟩ ⟨"hi", none⟩).posts = [] ∧
    (handleCreatePost 1 ⟨[], [], false, "", "", false⟩ ⟨"hi", none⟩
      (Except.ok ⟨42, 1, "hi", none, "t", false, false, 0, 0⟩)).posts =
      [⟨42, 1, "hi", none, "t", false, false, 0, 0⟩] ∧
    (handleCreatePost 1 ⟨[], [], false, "", "", false⟩ ⟨"hi", none⟩
      (Except.error none)).posts = [] := by
  have h := c4_no_optimistic_insert 1 ⟨[], [], false, "", "", false⟩ ⟨"hi", none⟩
    ⟨42, 1, "hi", none, "t", false, false, 0, 0⟩ none (by decide)
  exact ⟨h.1, h.2.2.1, h.2.2.2.1⟩

/-- C5 counterexample: with a collection holding the post with id 7, the
state reached by handleDeletePost before its remote call resolves still
contains that post; nothing is removed until the server confirms,
contradicting the claimed optimistic removal. -/
theorem c5_counterexample :
    (⟨7, 1, "p", none, "t", false, false, 0, 0⟩ : Post) ∈
      (deletePhase1
        ⟨[⟨7, 1, "p", none, "t", false, false, 0, 0⟩],
          [⟨7, 1, "p", none, "t", false, false, 0, 0⟩], false, "", "", false⟩
        7 true).posts ∧
    (deletePhase1
      ⟨[⟨7, 1, "p", none, "t", false, false, 0, 0⟩],
        [⟨7, 1, "p", none, "t", false, false, 0, 0⟩], false, "", "", false⟩
      7 true).posts =
      [⟨7, 1, "p", none, "t", false, false, 0, 0⟩] := by
  decide

/-- C5 amended: the removal happens only after the remote delete succeeds;
if the remote delete fails the collection is left entirely unchanged, so
the post trivially remains at its position with identical fields (and an
alert is shown in place of a typed DeleteError); on success both lists
are filtered by id, and deleting an id not present leaves the state
unchanged. -/
theorem c5_delete_after_confirm (st : DashState) (postId : Int) :
    handleDeletePost st postId true (Except.error ()) = st ∧
    (handleDeletePost st postId true (Except.ok ())).posts =
      st.posts.filter (fun p => !(p.id == postId)) ∧
    (handleDeletePost st postId true (Except.ok ())).userPosts =
      st.userPosts.filter (fun p => !(p.id == postId)) ∧
    ((∀ p ∈ st.posts, p.id ≠ postId) → (∀ p ∈ st.userPosts, p.id ≠ postId) →
      handleDeletePost st postId true (Except.ok ()) = st) := by
  refine ⟨rfl, rfl, rfl, ?_⟩
  intro h1 h2
  have e1 : st.posts.filter (fun p => !(p.id == postId)) = st.posts := by
    rw [List.filter_eq_self]
    intro p hp
    simpa using h1 p hp
  have e2 : st.userPosts.filter (fun p => !(p.id == postId)) = st.userPosts := by
    rw [List.filter_eq_self]
    intro p hp
    simpa using h2 p hp
  simp [handleDeletePost, e1, e2]

theorem c5_delete_after_confirm_witness :
    handleDeletePost
      ⟨[⟨3, 1, "p", none, "t", false, false, 0, 0⟩], [], false, "", "", false⟩
      7 true (Except.error ()) =
      ⟨[⟨3, 1, "p", none, "t", false, false, 0, 0⟩], [], false, "", "", false⟩ ∧
    handleDeletePost
      ⟨[⟨3, 1, "p", none, "t", false, false, 0, 0⟩], [], false, "", "", false⟩
      7 true (Except.ok ()) =
      ⟨[⟨3, 1, "p", none, "t", false, false, 0, 0⟩], [], false, "", "", false⟩ := by
  have h := c5_delete_after_confirm
    ⟨[⟨3, 1, "p", none, "t", false, false, 0, 0⟩], [], false, "", "", false⟩ 7
  exact ⟨h.1, h.2.2.2 (by decide) (by decide)⟩

theorem c3_mine_invariant_witness :
    mineInvariant 1 ⟨[], [], false, "", "", false⟩ ∧
    mineInvariant 1
      (applyDashOps 1
        [DashOp.load (Except.ok
            [⟨1, 1, "a", none, "t1", false, false, 0, 0⟩,
              ⟨2, 2, "b", none, "t2", false, false, 0, 0⟩]),
          DashOp.create ⟨"hi", none⟩
            (Except.ok ⟨3, 1, "hi", none, "t3", false, false, 0, 0⟩),
          DashOp.react 2 true (Except.error ()),
          DashOp.delete 1 true (Except.ok ()),
          DashOp.delete 2 true (Except.error ())]
        ⟨[], [], false, "", "", false⟩) :=
  ⟨by decide, c3_mine_invariant 1
    [DashOp.load (Except.ok
        [⟨1, 1, "a", none, "t1", false, false, 0, 0⟩,
          ⟨2, 2, "b", none, "t2", false, false, 0, 0⟩]),
      DashOp.create ⟨"hi", none⟩
        (Except.ok ⟨3, 1, "hi", none, "t3", false, false, 0, 0⟩),
      DashOp.react 2 true (Except.error ()),
      DashOp.delete 1 true (Except.ok ()),
      DashOp.delete 2 true (Except.error ())]
    ⟨[], [], false, "", "", false⟩ (by decide)⟩

/-- A like click together with the resolution of the remote call it
triggers: the card applies handleLike synchronously; Dashboard
handlePostLike then awaits the API call, and its catch block only shows
the alert "Failed to update like" (the returned Bool) without touching
any state, so the card keeps the optimistic value whatever the remote
outcome. -/
def likeClickFlow (s : CardState) (r : Except Unit Unit) : CardState × Bool :=
  let s1 := (handleLike s).1
  match r with
  | Except.ok _ => (s1, false)
  | Except.error _ => (s1, true)

/-- C6 counterexample: the card starts at isLiked false, isDisliked true,
likesCount 3, dislikesCount 1; the like click's remote call fails, yet
the final card state is the optimistic ⟨true, false, 4, 0⟩, not the
pre-operation state required by the claim. -/
theorem c6_counterexample :
    (likeClickFlow ⟨false, true, 3, 1⟩ (Except.error ())).1 = ⟨true, false, 4, 0⟩ ∧
    (likeClickFlow ⟨false, true, 3, 1⟩ (Except.error ())).1 ≠ ⟨false, true, 3, 1⟩ := by
  decide

/-- C6 amended: when the remote like call fails, the card keeps exactly
the optimistically toggled state (the outcome is independent of the
remote result, so nothing is reverted) and only a browser alert is
raised; no typed ReactionError reaches any state. -/
theorem c6_no_rollback (s : CardState) :
    (likeClickFlow s (Except.error ())).1 = (likeClickFlow s (Except.ok ())).1 ∧
    (likeClickFlow s (Except.error ())).2 = true ∧
    (likeClickFlow s (Except.error ())).1.isLiked = !s.isLiked := by
  refine ⟨rfl, rfl, ?_⟩
  rcases hl : s.isLiked <;> simp [likeClickFlow, handleLike, hl]

/-- Two successive like clicks on one card, the second issued while the
first remote call is still unresolved.  The source keeps no pending
marker of any kind: the second click runs the same handler, so both
clicks update the card and each one issues its own remote call through
handlePostLike. -/
def twoLikeClicks (p : Post) (s : CardState) : CardState × List ApiCall :=
  let r1 := handleLike s
  let r2 := handleLike r1.1
  (r2.1, [handlePostLike p.id r1.2, handlePostLike p.id r2.2])

/-- C7 counterexample: on a fresh card for post 7, a second like click
issued while the first call is pending is applied (the state changes
again from the post-first-click state) and a second remote call is
issued; nothing is rejected with OperationInProgress. -/
theorem c7_counterexample :
    (twoLikeClicks ⟨7, 1, "p", none, "t", false, false, 0, 0⟩
      (initCardState ⟨7, 1, "p", none, "t", false, false, 0, 0⟩)).2 =
      [ApiCall.likePost 7, ApiCall.removeLike 7] ∧
    (twoLikeClicks ⟨7, 1, "p", none, "t", false, false, 0, 0⟩
      (initCardState ⟨7, 1, "p", none, "t", false, false, 0, 0⟩)).1 ≠
      (handleLike (initCardState ⟨7, 1, "p", none, "t", false, false, 0, 0⟩)).1 := by
  decide

/-- C7 amended: no pending-operation state exists; a second like click
while the first remote call is unresolved is applied as an ordinary
toggle, so two remote calls are issued (a set followed by a clear, in
that order) and the like flag returns to its initial value. -/
theorem c7_no_pending_guard (p : Post) (s : CardState) :
    (twoLikeClicks p s).2 =
      [handlePostLike p.id (!s.isLiked), handlePostLike p.id s.isLiked] ∧
    (twoLikeClicks p s).2.length = 2 ∧
    (twoLikeClicks p s).1.isLiked = s.isLiked := by
  rcases hl : s.isLiked <;> rcases hd : s.isDisliked <;>
    simp [twoLikeClicks, handleLike, handlePostLike, hl, hd]

/-- The MIME types both upload handlers accept (the validTypes array,
identical in Signup handleFileChange, Profile handlePictureChange and
Dashboard handlePostImageChange). -/
def validTypes : List String := ["image/jpeg", "image/png", "image/gif"]

/-- Signup handleFileChange (profile-picture context): rejects a type not
in validTypes, then a size above 5 * 1024 * 1024 bytes; an accepted file
is stored into formData.profile_picture for the next signup submission. -/
def handleFileChange (file : JsFile) : Except String JsFile :=
  if validTypes.contains file.type = false then
    Except.error "Please upload a valid image file (JPG, PNG, GIF)"
  else if file.size > 5 * 1024 * 1024 then
    Except.error "File size must be less than 5MB"
  else
    Except.ok file

/-- Dashboard handlePostImageChange (feed-post-image context): rejects a
type not in validTypes, then a size above 10 * 1024 * 1024 bytes; an
accepted file is stored into the newPost draft's image field. -/
def handlePostImageChange (draft : NewPost) (file : JsFile) :
    Except String NewPost :=
  if validTypes.contains file.type = false then
    Except.error "Invalid image format. Use JPG, PNG, or GIF."
  else if file.size > 10 * 1024 * 1024 then
    Except.error "Image must be less than 10MB"
  else
    Except.ok { draft with image := some file }

/-- C8: exactly three media kinds are recognized; any other kind is
rejected with the unsupported-type message in both contexts; an oversize
file of a valid kind is rejected with the size message at 5 MiB in the
profile-picture context and at 10 MiB in the feed-post context; a valid
kind within the limit is accepted and staged into the draft. -/
theorem c8_upload_staging (draft : NewPost) (file : JsFile) :
    validTypes.length = 3 ∧
    (validTypes.contains file.type = false →
      handleFileChange file =
        Except.error "Please upload a valid image file (JPG, PNG, GIF)" ∧
      handlePostImageChange draft file =
        Except.error "Invalid image format. Use JPG, PNG, or GIF.") ∧
    (validTypes.contains file.type = true → file.size > 5 * 1024 * 1024 →
      handleFileChange file = Except.error "File size must be less than 5MB") ∧
    (validTypes.contains file.type = true → file.size > 10 * 1024 * 1024 →
      handlePostImageChange draft file =
        Except.error "Image must be less than 10MB") ∧
    (validTypes.contains file.type = true → file.size ≤ 5 * 1024 * 1024 →
      handleFileChange file = Except.ok file) ∧
    (validTypes.contains file.type = true → file.size ≤ 10 * 1024 * 1024 →
      handlePostImageChange draft file = Except.ok { draft with image := some file }) := by
  refine ⟨rfl, ?_, ?_, ?_, ?_, ?_⟩
  · intro ht
    constructor <;>
      · simp only [handleFileChange, handlePostImageChange]
        rw [if_pos ht]
  · intro ht hs
    simp only [handleFileChange]
    rw [if_neg (by simp only [ht]; decide), if_pos hs]
  · intro ht hs
    simp only [handlePostImageChange]
    rw [if_neg (by simp only [ht]; decide), if_pos hs]
  · intro ht hs
    simp only [handleFileChange]
    rw [if_neg (by simp only [ht]; decide), if_neg (Nat.not_lt.mpr hs)]
  · intro ht hs
    simp only [handlePostImageChange]
    rw [if_neg (by simp only [ht]; decide), if_neg (Nat.not_lt.mpr hs)]

theorem c8_upload_staging_witness :
    handleFileChange ⟨"image/png", 100⟩ = Except.ok ⟨"image/png", 100⟩ ∧
    handlePostImageChange ⟨"d", none⟩ ⟨"text/plain", 1⟩ =
      Except.error "Invalid image format. Use JPG, PNG, or GIF." ∧
    handleFileChange ⟨"image/gif", 6 * 1024 * 1024⟩ =
      Except.error "File size must be less than 5MB" ∧
    handlePostImageChange ⟨"d", none⟩ ⟨"image/gif", 6 * 1024 * 1024⟩ =
      Except.ok ⟨"d", some ⟨"image/gif", 6 * 1024 * 1024⟩⟩ :=
  ⟨(c8_upload_staging ⟨"d", none⟩ ⟨"image/png", 100⟩).2.2.2.2.1
      (by decide) (by decide),
    ((c8_upload_staging ⟨"d", none⟩ ⟨"text/plain", 1⟩).2.1 (by decide)).2,
    (c8_upload_staging ⟨"d", none⟩ ⟨"image/gif", 6 * 1024 * 1024⟩).2.2.1
      (by decide) (by decide),
    (c8_upload_staging ⟨"d", none⟩ ⟨"image/gif", 6 * 1024 * 1024⟩).2.2.2.2.2
      (by decide) (by decide)⟩

/-- C9 counterexample: from a fresh card ⟨false, false, 0, 0⟩ the first
like click yields ⟨true, false, 1, 0⟩; repeating the click does not
leave that state in place but clears the like again, giving
⟨false, false, 0, 0⟩: the repeat is not idempotent and its likes delta
is -1, not 0. -/
theorem c9_counterexample :
    (handleLike (handleLike ⟨false, false, 0, 0⟩).1).1 ≠
      (handleLike ⟨false, false, 0, 0⟩).1 ∧
    (handleLike (handleLike ⟨false, false, 0, 0⟩).1).1.likesCount ≠
      (handleLike ⟨false, false, 0, 0⟩).1.likesCount := by
  decide

/-- C9 amended: the like control is a toggle, so a repeated like click
undoes the first instead of leaving its state unchanged: after two
clicks the like flag and likesCount are back to their initial values,
the dislike flag is clear, and dislikesCount lost one exactly when the
dislike was initially set. -/
theorem c9_repeat_toggles (s : CardState) :
    (handleLike (handleLike s).1).1.isLiked = s.isLiked ∧
    (handleLike (handleLike s).1).1.likesCount = s.likesCount ∧
    (handleLike (handleLike s).1).1.isDisliked = false ∧
    (handleLike (handleLike s).1).1.dislikesCount =
      (if s.isDisliked then s.dislikesCount - 1 else s.dislikesCount) := by
  rcases hl : s.isLiked <;> rcases hd : s.isDisliked <;>
    simp [handleLike, hl, hd]

/-- The two PostCard component instances rendering the same post: one in
the Dashboard posts feed and one in the Profile "My Posts" sidebar.
Each instance owns its own useState hooks, initialised independently
from the post prop. -/
structure TwoViews where
  feedCard : CardState
  profileCard : CardState
deriving DecidableEq

/-- Both card instances as mounted from the same fetched post. -/
def initTwoViews (p : Post) : TwoViews :=
  { feedCard := initCardState p, profileCard := initCardState p }

/-- The view a click lands in. -/
inductive View where
  | feed
  | profile
deriving DecidableEq

/-- A like click on the card of one view updates only that component
instance's hooks; the Dashboard handler the click reaches never writes
the other instance's state. -/
def likeClickIn (v : View) (t : TwoViews) : TwoViews :=
  match v with
  | View.feed => { t with feedCard := (handleLike t.feedCard).1 }
  | View.profile => { t with profileCard := (handleLike t.profileCard).1 }

/-- C10: a reaction through one view's card leaves the other view's copy
of the same post untouched (in both directions), changes the clicked
copy's like flag, and thus makes the two copies of an initially
identical post disagree until a refetch replaces them. -/
theorem c10_independent_copies (p : Post) (t : TwoViews) :
    (likeClickIn View.feed t).profileCard = t.profileCard ∧
    (likeClickIn View.profile t).feedCard = t.feedCard ∧
    (likeClickIn View.feed t).feedCard.isLiked = !t.feedCard.isLiked ∧
    (likeClickIn View.feed (initTwoViews p)).feedCard ≠
      (likeClickIn View.feed (initTwoViews p)).profileCard := by
  refine ⟨rfl, rfl, ?_, ?_⟩
  · rcases hl : t.feedCard.isLiked <;>
      simp [likeClickIn, handleLike, hl]
  · intro heq
    have hflag := congrArg CardState.isLiked heq
    rcases hl : p.is_liked <;>
      simp [likeClickIn, initTwoViews, initCardState, handleLike, hl] at hflag
